import Mathlib

/-!
Verification of the TikTok content-marketing backend
(`thecompletelazytrend-backend`).

This file gives a shallow embedding, in Lean, of the response-parsing,
scraping, analysis and persistence logic of the repository, and proves
or refutes the frozen claims about it.

Conventions used throughout:

* JavaScript strings are Lean `String`s (lists of unicode scalars).
* `JSON.parse` is embedded as an executable recursive-descent parser
  `jsonParse` over the JSON grammar; success/failure and the parsed
  structure are what the claims depend on.  Number literals are kept as
  their source lexeme (no floating point is modelled).
* JavaScript regular expressions that the code applies to model output
  are embedded via a small backtracking regex engine (`Rx`, `matchL`,
  `scanFrom`) with JS semantics: leftmost match, greedy/lazy stars via
  backtracking priority.  Each regex literal of the source is
  transcribed as an `Rx` term.
* External collaborators (HTTP APIs, the object store, the relational
  store) are passed in as explicit environments of functions; a thrown
  JS exception or an error result is an `Option`/`Except` failure.
-/

/-! ## JSON values and `JSON.parse` -/

/-- A parsed JSON value.  Numbers keep their source lexeme: no claim in
this development depends on numeric value, only on parse success and on
the shape of arrays/strings. -/
inductive Json where
  | null : Json
  | bool (b : Bool) : Json
  | num (lexeme : String) : Json
  | str (s : String) : Json
  | arr (xs : List Json) : Json
  | obj (kvs : List (String × Json)) : Json
deriving Repr

/-- JSON insignificant whitespace (RFC 8259). -/
def isJsonWs (c : Char) : Bool :=
  c = ' ' ∨ c = '\t' ∨ c = '\n' ∨ c = '\r'

/-- Skip insignificant whitespace. -/
def skipWs (cs : List Char) : List Char := cs.dropWhile isJsonWs

/-- Numeric value of a hexadecimal digit. -/
def hexVal (c : Char) : Nat :=
  if c.isDigit then c.toNat - 48 else c.toLower.toNat - 87

/-- Whether a character is a hexadecimal digit. -/
def isHexDigitCh (c : Char) : Bool :=
  c.isDigit ∨ ('a' ≤ c ∧ c ≤ 'f') ∨ ('A' ≤ c ∧ c ≤ 'F')

/-- Parse the body of a JSON string literal (after the opening quote),
returning the decoded characters and the remainder after the closing
quote.  Raw control characters and unknown escapes are rejected, as
`JSON.parse` rejects them. -/
def parseStrBody : List Char → Option (List Char × List Char)
  | [] => none
  | '"' :: rest => some ([], rest)
  | '\\' :: e :: rest =>
    if e = '"' then (parseStrBody rest).map (fun (s, r) => ('"' :: s, r))
    else if e = '\\' then (parseStrBody rest).map (fun (s, r) => ('\\' :: s, r))
    else if e = '/' then (parseStrBody rest).map (fun (s, r) => ('/' :: s, r))
    else if e = 'b' then (parseStrBody rest).map (fun (s, r) => ('\x08' :: s, r))
    else if e = 'f' then (parseStrBody rest).map (fun (s, r) => ('\x0c' :: s, r))
    else if e = 'n' then (parseStrBody rest).map (fun (s, r) => ('\n' :: s, r))
    else if e = 'r' then (parseStrBody rest).map (fun (s, r) => ('\r' :: s, r))
    else if e = 't' then (parseStrBody rest).map (fun (s, r) => ('\t' :: s, r))
    else if e = 'u' then
      match rest with
      | a :: b :: c :: d :: rest2 =>
        if isHexDigitCh a ∧ isHexDigitCh b ∧ isHexDigitCh c ∧ isHexDigitCh d then
          let n := 4096 * hexVal a + 256 * hexVal b + 16 * hexVal c + hexVal d
          (parseStrBody rest2).map (fun (s, r) => (Char.ofNat n :: s, r))
        else none
      | _ => none
    else none
  | c :: rest =>
    if c.toNat < 32 then none
    else (parseStrBody rest).map (fun (s, r) => (c :: s, r))

/-- Parse a JSON number literal starting at the given characters,
returning the lexeme and the remainder.  Grammar:
`-? (0 | [1-9][0-9]*) (. [0-9]+)? ([eE][+-]? [0-9]+)?`. -/
def parseNum (cs : List Char) : Option (String × List Char) :=
  let (sign, cs1) := match cs with
    | '-' :: r => (['-'], r)
    | _ => (([] : List Char), cs)
  let intPart := cs1.takeWhile Char.isDigit
  let cs2 := cs1.drop intPart.length
  if intPart = [] then none
  else if 2 ≤ intPart.length ∧ intPart.headD '0' = '0' then none
  else
    let (frac, cs3) := match cs2 with
      | '.' :: r =>
        let ds := r.takeWhile Char.isDigit
        if ds = [] then (none, cs2) else (some ('.' :: ds), r.drop ds.length)
      | _ => (none, cs2)
    match frac, cs3 with
    | none, '.' :: _ => none
    | _, _ =>
      let (ex, cs4) := match cs3 with
        | e :: r =>
          if e = 'e' ∨ e = 'E' then
            let (sg, r2) := match r with
              | '+' :: r2 => (['+'], r2)
              | '-' :: r2 => (['-'], r2)
              | _ => (([] : List Char), r)
            let ds := r2.takeWhile Char.isDigit
            if ds = [] then (none, cs3) else (some (e :: (sg ++ ds)), r2.drop ds.length)
          else (none, cs3)
        | _ => (none, cs3)
      match ex, cs4 with
      | none, e :: _ =>
        if e = 'e' ∨ e = 'E' then none
        else some (String.mk (sign ++ intPart ++ (frac.getD []) ), cs4)
      | _, _ => some (String.mk (sign ++ intPart ++ (frac.getD []) ++ (ex.getD [])), cs4)

/-- Check that `pre` is literally the next characters, returning the rest. -/
def expectChars : List Char → List Char → Option (List Char)
  | [], cs => some cs
  | p :: ps, c :: cs => if c = p then expectChars ps cs else none
  | _ :: _, [] => none

mutual

/-- Parse one JSON value (fuel-indexed recursive descent embedding of
`JSON.parse`). -/
def parseVal : Nat → List Char → Option (Json × List Char)
  | 0, _ => none
  | f + 1, cs =>
    match skipWs cs with
    | [] => none
    | c :: rest =>
      if c = '"' then (parseStrBody rest).map (fun (s, r) => (Json.str (String.mk s), r))
      else if c = '[' then
        match skipWs rest with
        | ']' :: r => some (Json.arr [], r)
        | _ => (parseArrItems f rest).map (fun (xs, r) => (Json.arr xs, r))
      else if c = '{' then
        match skipWs rest with
        | '}' :: r => some (Json.obj [], r)
        | _ => (parseObjItems f rest).map (fun (kvs, r) => (Json.obj kvs, r))
      else if c = 't' then (expectChars ['r', 'u', 'e'] rest).map (fun r => (Json.bool true, r))
      else if c = 'f' then (expectChars ['a', 'l', 's', 'e'] rest).map (fun r => (Json.bool false, r))
      else if c = 'n' then (expectChars ['u', 'l', 'l'] rest).map (fun r => (Json.null, r))
      else if c = '-' ∨ c.isDigit then (parseNum (c :: rest)).map (fun (s, r) => (Json.num s, r))
      else none

/-- Parse a non-empty comma-separated list of array items followed by `]`. -/
def parseArrItems : Nat → List Char → Option (List Json × List Char)
  | 0, _ => none
  | f + 1, cs =>
    match parseVal f cs with
    | none => none
    | some (v, r) =>
      match skipWs r with
      | ']' :: r2 => some ([v], r2)
      | ',' :: r2 => (parseArrItems f r2).map (fun (xs, r3) => (v :: xs, r3))
      | _ => none

/-- Parse a non-empty comma-separated list of object members followed by `}`. -/
def parseObjItems : Nat → List Char → Option (List (String × Json) × List Char)
  | 0, _ => none
  | f + 1, cs =>
    match skipWs cs with
    | '"' :: rest =>
      match parseStrBody rest with
      | none => none
      | some (k, r) =>
        match skipWs r with
        | ':' :: r2 =>
          match parseVal f r2 with
          | none => none
          | some (v, r3) =>
            match skipWs r3 with
            | '}' :: r4 => some ([(String.mk k, v)], r4)
            | ',' :: r4 => (parseObjItems f r4).map (fun (kvs, r5) => ((String.mk k, v) :: kvs, r5))
            | _ => none
        | _ => none
    | _ => none

end

/-- Embedding of `JSON.parse`: parse the entire text as one JSON value
(with insignificant whitespace allowed around it); `none` models a
thrown `SyntaxError`. -/
def jsonParse (s : String) : Option Json :=
  match parseVal (3 * s.data.length + 3) s.data with
  | some (v, rest) => if skipWs rest = [] then some v else none
  | none => none

theorem parseVal_backslash_head (f : Nat) (t : List Char) :
    parseVal f ('\\' :: t) = none := by
  cases f with
  | zero => rfl
  | succ f =>
    have hws : skipWs ('\\' :: t) = '\\' :: t := by
      simp [skipWs, List.dropWhile_cons, isJsonWs]
    simp only [parseVal, hws]
    rw [if_neg (by decide), if_neg (by decide), if_neg (by decide), if_neg (by decide),
      if_neg (by decide), if_neg (by decide), if_neg (by decide)]

/-- A text whose first character is a backslash is never valid JSON. -/
theorem jsonParse_backslash_head (t : List Char) :
    jsonParse (String.mk ('\\' :: t)) = none := by
  simp [jsonParse, parseVal_backslash_head]

/-! ## A small backtracking regex engine (JS semantics)

`matchL fuel r cs` returns all ways `r` can match a prefix of `cs`, as
`(consumed, rest)` pairs in backtracking priority order: the head of the
list is the match a JS engine commits to.  Greedy stars put longer
iterations first, lazy stars put shorter ones first; an iteration of a
star that consumes nothing is discarded, as JS engines do.  `scanFrom`
then tries successive start positions left to right, exactly as
`String.prototype.match` (without `g`) does, and returns the full text
of the first match. -/

inductive Rx where
  | eps : Rx
  | chr (c : Char) : Rx
  | cls (p : Char → Bool) : Rx
  | seq (a b : Rx) : Rx
  | alt (a b : Rx) : Rx
  | star (r : Rx) : Rx
  | lazyStar (r : Rx) : Rx

/-- One layer of matching, structurally recursive on the regex; star
iterations continue through `starNext`, which the fuel-indexed wrapper
ties to the next lower fuel level. -/
def matchRx (starNext : Rx → List Char → List (List Char × List Char)) :
    Rx → List Char → List (List Char × List Char)
  | .eps, cs => [([], cs)]
  | .chr _, [] => []
  | .chr c, x :: xs => if x = c then [([x], xs)] else []
  | .cls _, [] => []
  | .cls p, x :: xs => if p x then [([x], xs)] else []
  | .seq a b, cs =>
    (matchRx starNext a cs).flatMap (fun ur =>
      (matchRx starNext b ur.2).map (fun vs => (ur.1 ++ vs.1, vs.2)))
  | .alt a b, cs => matchRx starNext a cs ++ matchRx starNext b cs
  | .star r, cs =>
    ((matchRx starNext r cs).flatMap (fun ur =>
      if ur.1.isEmpty then []
      else (starNext (.star r) ur.2).map (fun vs => (ur.1 ++ vs.1, vs.2))))
      ++ [([], cs)]
  | .lazyStar r, cs =>
    ([], cs) :: ((matchRx starNext r cs).flatMap (fun ur =>
      if ur.1.isEmpty then []
      else (starNext (.lazyStar r) ur.2).map (fun vs => (ur.1 ++ vs.1, vs.2))))

/-- All matches of `r` against a prefix of `cs`, in priority order.
When fuel runs out a star stops iterating; every use supplies fuel at
least `cs.length + 1`, which is always sufficient because each star
iteration consumes at least one character. -/
def matchL : Nat → Rx → List Char → List (List Char × List Char)
  | 0, r, cs => matchRx (fun _ rest => [([], rest)]) r cs
  | f + 1, r, cs => matchRx (matchL f) r cs

/-- First match of `r` scanning start positions left to right; returns
the consumed text of the match (i.e. JS `match[0]`). -/
def scanFrom (r : Rx) : List Char → Option (List Char)
  | [] => ((matchL 1 r []).head?).map Prod.fst
  | c :: t =>
    match ((matchL (t.length + 2) r (c :: t)).head?).map Prod.fst with
    | some u => some u
    | none => scanFrom r t

/-- JS `text.match(re)` (no `g` flag), full match text. -/
def strScan (r : Rx) (s : String) : Option String :=
  (scanFrom r s.data).map String.mk

theorem head?_mem {α : Type} {l : List α} {x : α} (h : l.head? = some x) : x ∈ l := by
  cases l with
  | nil => simp at h
  | cons a t =>
    simp only [List.head?] at h
    rw [Option.some_inj] at h
    rw [← h]
    exact List.mem_cons_self a t

theorem matchRx_seq_chr_head {sn : Rx → List Char → List (List Char × List Char)}
    {r : Rx} {c : Char} {cs : List Char} {p : List Char × List Char}
    (h : p ∈ matchRx sn (.seq (.chr c) r) cs) : ∃ t, p.1 = c :: t := by
  simp only [matchRx] at h
  rcases List.mem_flatMap.mp h with ⟨ur, h1, h2⟩
  rcases List.mem_map.mp h2 with ⟨vs, _, hv⟩
  cases cs with
  | nil => simp [matchRx] at h1
  | cons x xs =>
    simp only [matchRx] at h1
    by_cases hx : x = c
    · rw [if_pos hx] at h1
      simp only [List.mem_singleton] at h1
      refine ⟨vs.1, ?_⟩
      rw [← hv, h1, hx]
      rfl
    · rw [if_neg hx] at h1
      simp at h1

theorem matchL_seq_chr_head {f : Nat} {r : Rx} {c : Char} {cs : List Char}
    {p : List Char × List Char}
    (h : p ∈ matchL f (.seq (.chr c) r) cs) : ∃ t, p.1 = c :: t := by
  cases f with
  | zero => exact matchRx_seq_chr_head h
  | succ f => exact matchRx_seq_chr_head h

theorem scanFrom_seq_chr_head {r : Rx} {c : Char} {cs u : List Char}
    (h : scanFrom (.seq (.chr c) r) cs = some u) : ∃ t, u = c :: t := by
  induction cs with
  | nil =>
    simp only [scanFrom] at h
    cases hh : (matchL 1 (Rx.seq (Rx.chr c) r) []).head? with
    | none => rw [hh] at h; simp at h
    | some p =>
      rw [hh] at h
      simp at h
      obtain ⟨t, ht⟩ := matchL_seq_chr_head (head?_mem hh)
      exact ⟨t, by rw [← h]; exact ht⟩
  | cons x xs ih =>
    simp only [scanFrom] at h
    cases hh : (matchL (xs.length + 2) (Rx.seq (Rx.chr c) r) (x :: xs)).head? with
    | none =>
      rw [hh] at h
      exact ih h
    | some p =>
      rw [hh] at h
      simp at h
      obtain ⟨t, ht⟩ := matchL_seq_chr_head (head?_mem hh)
      exact ⟨t, by rw [← h]; exact ht⟩

/-! ## Shared JavaScript-semantics helpers -/

/-- JS whitespace as used by `\s` and `trim` (ASCII part; the exotic
unicode space characters play no role in any claim). -/
def isJsWs (c : Char) : Bool :=
  c = ' ' ∨ c = '\t' ∨ c = '\n' ∨ c = '\r' ∨ c = '\x0b' ∨ c = '\x0c'

/-- JS `String.prototype.trim`. -/
def jsTrim (s : String) : String :=
  String.mk ((s.data.dropWhile isJsWs).reverse.dropWhile isJsWs).reverse

/-- JS `String.prototype.toLowerCase` (per-character). -/
def strToLower (s : String) : String := String.mk (s.data.map Char.toLower)

/-- Is `p` a (character-level) prefix of `s`?  Embeds JS
`s.startsWith(p)`. -/
def strHasPre (p s : String) : Bool := p.data.isPrefixOf s.data

/-- Is `p` a (character-level) suffix of `s`?  Embeds JS
`s.endsWith(p)`. -/
def strHasSuf (p s : String) : Bool := p.data.isSuffixOf s.data

/-- Index of the first occurrence of `sep` as a sublist. -/
def findSubIdx (sep : List Char) : List Char → Option Nat
  | [] => if sep.isEmpty then some 0 else none
  | c :: t => if sep.isPrefixOf (c :: t) then some 0 else (findSubIdx sep t).map (· + 1)

/-- Split on every non-overlapping occurrence of `sep` (fuel-indexed;
`cs.length + 1` always suffices for a non-empty separator). -/
def splitSub (sep : List Char) : Nat → List Char → List (List Char)
  | 0, cs => [cs]
  | f + 1, cs =>
    match findSubIdx sep cs with
    | none => [cs]
    | some i => cs.take i :: splitSub sep f (cs.drop (i + sep.length))

/-- JS `s.split(sep)` for a non-empty literal separator. -/
def strSplit (s sep : String) : List String :=
  (splitSub sep.data (s.data.length + 1) s.data).map String.mk

/-- Does `pat` occur as a contiguous substring? (JS `includes`). -/
def containsSub (pat : List Char) : List Char → Bool
  | [] => pat.isEmpty
  | c :: t => pat.isPrefixOf (c :: t) ∨ containsSub pat t

/-- JS `s.includes(pat)`. -/
def containsSubstr (s pat : String) : Bool := containsSub pat.data s.data

/-- JS `a || b` where `a` may be `undefined`/`null` and the empty
string is falsy. -/
def jsOrStr (a : Option String) (b : String) : String :=
  match a with
  | some s => if s = "" then b else s
  | none => b

/-- JS `a || b` on optional strings, keeping the option (empty string
is falsy). -/
def jsOrOpt (a b : Option String) : Option String :=
  match a with
  | some s => if s = "" then b else some s
  | none => b

/-- JS `a || b` for numbers (`0` and `undefined` are falsy). -/
def jsOrNat (a : Option Nat) (b : Nat) : Nat :=
  match a with
  | some n => if n = 0 then b else n
  | none => b

/-- All full matches of a global regex of the form `q([^q]+)q` (for a
quote class `isQ`), JS semantics: leftmost scanning, resuming after
each match, advancing one position on failure.  Fuel-indexed; the fuel
`cs.length` always suffices because every step drops at least one
character. -/
def quotedScanF (isQ : Char → Bool) : Nat → List Char → List (List Char)
  | 0, _ => []
  | _ + 1, [] => []
  | f + 1, c :: t =>
    if isQ c then
      let run := t.takeWhile (fun x => ¬ isQ x)
      match t.drop run.length with
      | q2 :: rest2 =>
        if run.isEmpty then quotedScanF isQ f t
        else (c :: (run ++ [q2])) :: quotedScanF isQ f rest2
      | [] => quotedScanF isQ f t
    else quotedScanF isQ f t

/-- JS `content.match(/q([^q]+)q/g)` full-match list. -/
def quotedScan (isQ : Char → Bool) (cs : List Char) : List (List Char) :=
  quotedScanF isQ cs.length cs

/-! ## `generateSearchQueries` — deepseek variant (unnamed openrouter
service file, `part_003`, lines 64–133) -/

/-- The synthetic default query `` `trending ${businessDescription} tiktok` ``. -/
def defaultQueryJson (businessDescription : String) : Json :=
  .str ("trending " ++ businessDescription ++ " tiktok")

/-- The character class written `[\\s*\\"[^]` inside the double-escaped
source pattern: `{ '\\', 's', '*', '"', '[', '^' }`. -/
def brokenCls1 (c : Char) : Bool :=
  c = '\\' ∨ c = 's' ∨ c = '*' ∨ c = '"' ∨ c = '[' ∨ c = '^'

/-- The class `[^\\"]`: any character except backslash and quote. -/
def notBackslashQuote (c : Char) : Bool := ¬ (c = '\\' ∨ c = '"')

/-- A run of literal `s` characters (what the double-escaped `\\s*`
denotes: a literal backslash is written separately). -/
def sRun : Rx := .star (.chr 's')

/-- The group `(?:\\s*,\\s*\\"[^\\"]*\\")` of the double-escaped source
pattern: literal `\`, `s`-run, `,`, `\`, `s`-run, `\"`, non-`\"`-run, `\"`. -/
def brokenGroupRx : Rx :=
  .seq (.chr '\\') (.seq sRun (.seq (.chr ',') (.seq (.chr '\\') (.seq sRun
    (.seq (.chr '\\') (.seq (.chr '"') (.seq (.star (.cls notBackslashQuote))
      (.seq (.chr '\\') (.chr '"')))))))))

/-- Everything of the double-escaped array pattern after its mandatory
leading literal backslash. -/
def brokenTailRx : Rx :=
  .seq (.star (.cls brokenCls1)) (.seq (.chr '\\') (.seq (.chr '"')
    (.seq (.star (.cls notBackslashQuote)) (.seq (.chr '\\') (.seq (.chr '"')
      (.seq (.star brokenGroupRx) (.seq (.chr '\\') (.seq sRun
        (.seq (.chr '\\') (.chr ']'))))))))))

/-- The source regex literal
`/\\[\\s*\\"[^\\"]*\\"(?:\\s*,\\s*\\"[^\\"]*\\")*\\s*\\]/`
(`part_003` line 69).  Because every escape is doubled, the pattern
requires a literal backslash as its first character. -/
def brokenArrayRx : Rx := .seq (.chr '\\') brokenTailRx

/-- Strategy 1 (`part_003` lines 68–83): regex-extract an array literal
and accept it only if it parses as a JSON array of exactly 5 items. -/
def dsStep1 (content : String) : Option (List Json) :=
  match strScan brokenArrayRx content with
  | none => none
  | some m =>
    match jsonParse m with
    | some (.arr xs) => if xs.length = 5 then some xs else none
    | _ => none

/-- Strategy 2 (`part_003` lines 85–99): parse the entire text and
accept only a JSON array of exactly 5 items. -/
def dsStep2 (content : String) : Option (List Json) :=
  match jsonParse content with
  | some (.arr xs) => if xs.length = 5 then some xs else none
  | _ => none

/-- Strategy 3 (`part_003` lines 104–113): all `"([^"]+)"` matches,
quote characters removed and trimmed, empty strings dropped; accepted
when at least 5 remain, truncated to the first 5. -/
def dsQuoteMatches (content : String) : List (List Char) :=
  quotedScan (fun c => c = '"') content.data

/-- The cleaned quoted candidates:
`stringMatches.map(q => q.replace(/"/g, '').trim()).filter(q => q.length > 0)`. -/
def dsExtractedQuotes (content : String) : List String :=
  ((dsQuoteMatches content).map (fun m =>
    jsTrim (String.mk (m.filter (fun c => ¬ c = '"'))))).filter (fun q => 0 < q.length)

def dsStep3 (content : String) : Option (List Json) :=
  if 0 < (dsQuoteMatches content).length then
    if 5 ≤ (dsExtractedQuotes content).length then
      some (((dsExtractedQuotes content).take 5).map Json.str)
    else none
  else none

/-- The class `[-*•\\d.]` of the double-escaped marker pattern:
`{ '-', '*', '•', '\\', 'd', '.' }` (note: `d` is a literal letter, not
a digit class). -/
def brokenMarkerCls (c : Char) : Bool :=
  c = '-' ∨ c = '*' ∨ c = '•' ∨ c = '\\' ∨ c = 'd' ∨ c = '.'

/-- `line.replace(/^[-*•\\d.]\\s*/, '')` (`part_003` line 116): the
double-escaped pattern strips one marker-class character only when it
is followed by a literal backslash and a run of `s` characters. -/
def dsStripMarker (l : String) : String :=
  match l.data with
  | c1 :: '\\' :: rest =>
    if brokenMarkerCls c1 then String.mk (rest.dropWhile (fun c => c = 's')) else l
  | _ => l

/-- The line filter of `part_003` line 117. -/
def dsLineKeep (l : String) : Bool :=
  0 < l.length ∧ ¬ containsSubstr (strToLower l) "json" ∧
    ¬ strHasPre "[" l ∧ ¬ strHasSuf "]" l

/-- Strategy 4 (`part_003` lines 115–124): split on the literal
two-character sequence `\n` (the source writes `split('\\n')`), strip
markers, trim, filter; accepted when at least 5 lines remain, truncated
to the first 5. -/
def dsCleanLines (content : String) : List String :=
  ((strSplit content "\\n").map (fun l => jsTrim (dsStripMarker l))).filter dsLineKeep

def dsStep4 (content : String) : Option (List Json) :=
  if 5 ≤ (dsCleanLines content).length then
    some (((dsCleanLines content).take 5).map Json.str)
  else none

/-- The parsing cascade of `generateSearchQueries` in the deepseek
variant (`part_003` lines 64–133): the strategies in source order, first
acceptance wins; ultimate fallback is the single synthetic default
query. -/
def generateSearchQueriesDs (businessDescription content : String) : List Json :=
  match dsStep1 content with
  | some qs => qs
  | none =>
    match dsStep2 content with
    | some qs => qs
    | none =>
      match dsStep3 content with
      | some qs => qs
      | none =>
        match dsStep4 content with
        | some qs => qs
        | none => [defaultQueryJson businessDescription]

/-- The double-escaped bracket regex can never contribute a result: any
text it matches starts with a literal backslash, which `JSON.parse`
always rejects. -/
theorem dsStep1_none (content : String) : dsStep1 content = none := by
  unfold dsStep1
  cases hscan : strScan brokenArrayRx content with
  | none => rfl
  | some m =>
    unfold strScan at hscan
    cases hs : scanFrom brokenArrayRx content.data with
    | none => rw [hs] at hscan; simp at hscan
    | some u =>
      rw [hs] at hscan
      simp at hscan
      obtain ⟨t, ht⟩ := scanFrom_seq_chr_head (r := brokenTailRx) (by rw [← hs]; rfl)
      rw [← hscan, ht]
      simp [jsonParse_backslash_head]

/-! ## `generateSearchQueries` — `src/services/openrouterService.js`
(lines 52–93) -/

/-- The class `['"]`. -/
def quoteCls (c : Char) : Bool := c = '\'' ∨ c = '"'

/-- `.` under the `s` flag: any character. -/
def anyCh (_ : Char) : Bool := true

/-- `\s*`. -/
def wsStar : Rx := .star (.cls isJsWs)

/-- `['"].*?['"]` (with `s` flag). -/
def jsQuotedItem : Rx :=
  .seq (.cls quoteCls) (.seq (.lazyStar (.cls anyCh)) (.cls quoteCls))

/-- `\s*,\s*['"].*?['"]`, the repeated group of the array pattern. -/
def jsArrGroup : Rx := .seq wsStar (.seq (.chr ',') (.seq wsStar jsQuotedItem))

/-- The source regex literal
`/\[\s*(['"].*?['"](\s*,\s*['"].*?['"])*)\s*\]/s`
(`openrouterService.js` line 61); the capture groups play no role since
the code uses `match[0]`. -/
def jsArrayRx : Rx :=
  .seq (.chr '[') (.seq wsStar (.seq jsQuotedItem
    (.seq (.star jsArrGroup) (.seq wsStar (.chr ']')))))

/-- `str.replace(/^["']|["']$/g, '')`: drop one leading and one
trailing quote character. -/
def jsStripEdgeQuotes (s : String) : String :=
  let d1 := match s.data with
    | c :: t => if quoteCls c then t else s.data
    | [] => []
  let d2 := match d1.reverse with
    | c :: t => if quoteCls c then t.reverse else d1
    | [] => d1
  String.mk d2

/-- The leading class of the line-cleaning pattern
`/^["'\d\.\s-]*|["'\s]*$/g`. -/
def jsLineLeadCls (c : Char) : Bool :=
  c = '"' ∨ c = '\'' ∨ c.isDigit ∨ c = '.' ∨ isJsWs c ∨ c = '-'

/-- The trailing class of the same pattern. -/
def jsLineTrailCls (c : Char) : Bool := c = '"' ∨ c = '\'' ∨ isJsWs c

/-- `line.replace(/^["'\d\.\s-]*|["'\s]*$/g, '').trim()`
(`openrouterService.js` line 88). -/
def cleanLineJs (l : String) : String :=
  jsTrim (String.mk ((l.data.dropWhile jsLineLeadCls).reverse.dropWhile jsLineTrailCls).reverse)

/-- The parsing cascade of `generateSearchQueries` in
`src/services/openrouterService.js` (lines 52–93): direct `JSON.parse`
of the whole text is returned unchecked; then regex extraction; then
quoted strings (cleaned, truncated to 5); then line splitting on real
newlines (cleaned, truncated to 5).  There is no synthetic default. -/
def generateSearchQueriesJs (content : String) : Json :=
  match jsonParse content with
  | some v => v
  | none =>
    let viaRegex : Option Json :=
      match strScan jsArrayRx content with
      | some m => jsonParse m
      | none => none
    match viaRegex with
    | some v => v
    | none =>
      let raw := quotedScan quoteCls content.data
      if 0 < raw.length then
        let cleaned := ((raw.map (fun m => jsTrim (jsStripEdgeQuotes (String.mk m))))).filter
          (fun s => 0 < s.length)
        .arr ((cleaned.take 5).map Json.str)
      else
        let lines := (((strSplit content "\n").filter (fun l => 0 < (jsTrim l).length)).map
          cleanLineJs).filter
          (fun l => ¬ strHasPre "```" l ∧ ¬ strHasSuf "```" l ∧ 0 < l.length)
        .arr ((lines.take 5).map Json.str)

/-! ## `reconstructVideos` section extraction (`part_003` lines 200–256) -/

/-- Case-insensitive character comparison. -/
def lowerEqCh (a b : Char) : Bool := a.toLower = b.toLower

/-- Is `pat` a case-insensitive prefix? -/
def ciPre : List Char → List Char → Bool
  | [], _ => true
  | _ :: _, [] => false
  | p :: ps, c :: cs => lowerEqCh p c ∧ ciPre ps cs

/-- Index of the first case-insensitive occurrence of `pat`. -/
def ciFindIdx (pat : List Char) : List Char → Option Nat
  | [] => if pat.isEmpty then some 0 else none
  | c :: t => if ciPre pat (c :: t) then some 0 else (ciFindIdx pat t).map (· + 1)

/-- Embedding of the section regexes
`/Heading:?([\s\S]*?)(?:Next:?|$)/i` used by `reconstructVideos`: find
the first case-insensitive occurrence of the heading, skip an optional
colon, and capture lazily up to the first case-insensitive occurrence
of the stop heading (or the end of the text); the caller trims the
capture.  Returns `none` when the heading does not occur, as the JS
`match` does. -/
def sectionCapture (heading : String) (stop : Option String) (content : String) : Option String :=
  match ciFindIdx heading.data content.data with
  | none => none
  | some i =>
    let after := content.data.drop (i + heading.data.length)
    let afterColon := match after with
      | ':' :: r => r
      | _ => after
    let cap := match stop with
      | none => afterColon
      | some st =>
        match ciFindIdx st.data afterColon with
        | some j => afterColon.take j
        | none => afterColon
    some (String.mk cap)

/-- The list-marker cleaning `line.replace(/^[-*•\d.]\s*/, '').trim()`
used for `contentThemes` (`part_003` lines 237–240; here `\d` and `\s`
are ordinary single-escaped classes). -/
def stdStripMarker (l : String) : String :=
  match l.data with
  | c :: rest =>
    if c = '-' ∨ c = '*' ∨ c = '•' ∨ c.isDigit ∨ c = '.'
    then jsTrim (String.mk (rest.dropWhile isJsWs))
    else jsTrim l
  | [] => jsTrim l

/-- The structured strategy object built by `reconstructVideos`. -/
structure Strategy where
  observations : String
  keyTakeaways : String
  sampleScript : String
  technicalSpecifications : String
  contentThemes : List String
  hashtagStrategy : String
  postingFrequency : String
  rawContent : String
deriving Repr

/-- The seven section headings of the synthesis prompt, in order. -/
def strategyHeadings : List String :=
  ["Observations from Analyzed Videos", "Key Trend Takeaways", "Sample TikTok Script",
   "Technical Specifications for Sample Script", "General Content Themes",
   "Hashtag Strategy", "Posting Frequency"]

/-- Section extraction of `reconstructVideos` (`part_003` lines
202–256): initialize every field empty with `rawContent` the full text,
fill each field from its heading regex, and, when the first three
fields all stayed empty, fall back to placing the entire text in
`observations`. -/
def reconstructStrategy (content : String) : Strategy :=
  let obs := match sectionCapture "Observations from Analyzed Videos"
      (some "Key Trend Takeaways") content with
    | some c => jsTrim c
    | none => ""
  let keyT := match sectionCapture "Key Trend Takeaways"
      (some "Sample TikTok Script") content with
    | some c => jsTrim c
    | none => ""
  let script := match sectionCapture "Sample TikTok Script"
      (some "Technical Specifications for Sample Script") content with
    | some c => jsTrim c
    | none => ""
  let tech := match sectionCapture "Technical Specifications for Sample Script"
      (some "General Content Themes") content with
    | some c => jsTrim c
    | none => ""
  let themes := match sectionCapture "General Content Themes"
      (some "Hashtag Strategy") content with
    | some c => ((strSplit c "\n").map stdStripMarker).filter (fun l => 0 < l.length)
    | none => []
  let hashtags := match sectionCapture "Hashtag Strategy"
      (some "Posting Frequency") content with
    | some c => jsTrim c
    | none => ""
  let freq := match sectionCapture "Posting Frequency" none content with
    | some c => jsTrim c
    | none => ""
  let obs2 := if obs = "" ∧ keyT = "" ∧ script = "" then content else obs
  { observations := obs2, keyTakeaways := keyT, sampleScript := script,
    technicalSpecifications := tech, contentThemes := themes,
    hashtagStrategy := hashtags, postingFrequency := freq, rawContent := content }

/-! ## Video analyzer (`src/scripts/analyzeAllVideos.js`) -/

/-- The source regex literal `/\{.*\}/s` (`analyzeAllVideos.js` line
137): a greedy brace-delimited span, with `.` matching newlines. -/
def jsonObjRx : Rx := .seq (.chr '{') (.seq (.star (.cls anyCh)) (.chr '}'))

/-- `rawContent.match(/\{.*\}/s)` full-match text. -/
def braceSpan (s : String) : Option String := strScan jsonObjRx s

/-- The response-parsing step of `analyzeVideo` (`analyzeAllVideos.js`
lines 136–150): locate the brace span, then `JSON.parse` it; either
failure throws a `Malformed AI response` error. -/
def analyzeResponse (raw : String) : Except String Json :=
  match braceSpan raw with
  | none => .error "Malformed AI response: No JSON object found"
  | some m =>
    match jsonParse m with
    | some v => .ok v
    | none => .error "Malformed AI response: Invalid JSON format"

/-- External collaborators of the per-video analysis loop: the
multimodal API call (returning the response text of a video, or a
network/API error) and the database update. -/
structure AnalyzeEnv where
  call : String → Except String String
  update : String → Json → Except String String

/-- One iteration of the loop body of `analyzeVideosForTrendQuery`
(`analyzeAllVideos.js` lines 243–257): analysis plus update; any error
is caught, logged and yields no result for this video. -/
def analyzeOne (env : AnalyzeEnv) (videoId : String) : Option (String × Json) :=
  match env.call videoId with
  | .error _ => none
  | .ok raw =>
    match analyzeResponse raw with
    | .error _ => none
    | .ok j =>
      match env.update videoId j with
      | .error _ => none
      | .ok _ => some (videoId, j)

/-- The analysis loop over a batch of staged videos: each video is
processed independently; failures are skipped, successes collected. -/
def analyzeBatch (env : AnalyzeEnv) (videos : List String) : List (String × Json) :=
  videos.filterMap (analyzeOne env)

/-! ## Feed-search scraper (`src/services/rapidApiService.js`) -/

/-- A raw search hit in the feed-search shape (`video_id`,
`author.unique_id`, engagement counters); absent fields are `none`. -/
structure FeedVideo where
  video_id : Option String
  author_unique_id : Option String
  title : Option String
  digg_count : Option Nat
  comment_count : Option Nat
  share_count : Option Nat
  play_count : Option Nat
  duration : Option Nat
  music_title : Option String
  cover : Option String

/-- The `data` object of the download API response. -/
structure DownloadData where
  hdplay : Option String
  play : Option String
  wmplay : Option String
  title : Option String
  origin_cover : Option String
  cover : Option String
  duration : Option Nat
  music_title : Option String

/-- A processed (staged) video as pushed onto `allVideos`. -/
structure ProcessedVideo where
  pvId : String
  author : String
  title : String
  description : String
  likes : Nat
  comments : Nat
  shares : Nat
  views : Nat
  originalUrl : String
  supabaseUrl : String
  coverUrl : String
  searchQuery : String
  duration : Nat
  musicTitle : String
  dbId : String
deriving Repr, DecidableEq

/-- External collaborators of the feed-search scraper.  `search` models
the search API (`none` = thrown error, non-zero `code`, or missing
`data.videos`); `download` models the per-video download-info API;
`fetch` models the binary GET (`none` = network failure, `some blob`
a downloaded payload token); `upload` models
`uploadVideoToSupabase blob fileName` (`none` = thrown error);
`saveQuery`/`saveVideo` model the database writes; `genId` models the
`video-${Date.now()}-${random}` generator, indexed by query and
position. -/
structure FeedEnv where
  search : String → Option (List FeedVideo)
  download : String → Option DownloadData
  fetch : String → Option String
  upload : String → String → Option String
  saveQuery : String → Option String
  saveVideo : String → Option String
  genId : String → Nat → String

/-- The TikTok page URL built at `rapidApiService.js` line 93. -/
def feedVideoUrl (auid vid : String) : String :=
  "https://www.tiktok.com/@" ++ auid ++ "/video/" ++ vid

/-- The generated storage file name (`rapidApiService.js` lines
121–124): `tq-${trendQueryId}-${videoIdForSupabase}.mp4` or
`${videoIdForSupabase}.mp4`. -/
def feedFileName (env : FeedEnv) (query : String) (trendQueryId : Option String)
    (idx : Nat) : String :=
  match trendQueryId with
  | some t => "tq-" ++ t ++ "-" ++ env.genId query idx ++ ".mp4"
  | none => env.genId query idx ++ ".mp4"

/-- The per-video body of the scraping loop (`rapidApiService.js`
lines 83–196).  Every `continue` of the source is a `none` here: missing
`video_id`, missing author (a thrown `TypeError` caught by the
per-video handler), download-API failure, no download URL, download or
upload failure, empty public URL, or a database error. -/
def processFeedVideo (env : FeedEnv) (query : String) (trendQueryId : Option String)
    (idx : Nat) (v : FeedVideo) : Option ProcessedVideo :=
  match v.video_id with
  | none => none
  | some vid =>
    if vid = "" then none
    else
    match v.author_unique_id with
    | none => none
    | some auid =>
      match env.download (feedVideoUrl auid vid) with
      | none => none
      | some dd =>
        match jsOrOpt dd.hdplay (jsOrOpt dd.play dd.wmplay) with
        | none => none
        | some durl =>
          if durl = "" then none
          else
            match env.fetch durl with
            | none => none
            | some blob =>
              match env.upload blob (feedFileName env query trendQueryId idx) with
              | none => none
              | some supaUrl =>
                if supaUrl = "" then none
                else
                  match env.saveVideo (feedFileName env query trendQueryId idx) with
                  | none => none
                  | some dbId =>
                    some { pvId := env.genId query idx,
                           author := jsOrStr v.author_unique_id "Unknown Author",
                           title := jsOrStr dd.title (jsOrStr v.title query),
                           description := jsOrStr dd.title (jsOrStr v.title query),
                           likes := jsOrNat v.digg_count 0,
                           comments := jsOrNat v.comment_count 0,
                           shares := jsOrNat v.share_count 0,
                           views := jsOrNat v.play_count 0,
                           originalUrl := feedVideoUrl auid vid,
                           supabaseUrl := supaUrl,
                           coverUrl := jsOrStr dd.origin_cover (jsOrStr dd.cover (jsOrStr v.cover "")),
                           searchQuery := query,
                           duration := jsOrNat dd.duration (jsOrNat v.duration 0),
                           musicTitle := jsOrStr dd.music_title (jsOrStr v.music_title "N/A"),
                           dbId := dbId }

/-- One query of the scraping loop (`rapidApiService.js` lines 26–204):
save the trend query (failure tolerated), search, keep at most
`videosPerQuery` hits (`slice(0, videosPerQuery)`, lines 76–81), and
process each hit independently. -/
def scrapeFeedQuery (env : FeedEnv) (userId : Option String) (videosPerQuery : Nat)
    (query : String) : List ProcessedVideo :=
  let trendQueryId := match userId with
    | some _ => env.saveQuery query
    | none => none
  match env.search query with
  | none => []
  | some vids =>
    ((vids.take videosPerQuery).enum).filterMap
      (fun iv => processFeedVideo env query trendQueryId iv.1 iv.2)

/-- `scrapeTikTokVideos` of `src/services/rapidApiService.js`: the flat
accumulation of all per-query results, in query order. -/
def scrapeTikTokVideosFeed (env : FeedEnv) (searchQueries : List String)
    (videosPerQuery : Nat) (userId : Option String) : List ProcessedVideo :=
  searchQueries.flatMap (scrapeFeedQuery env userId videosPerQuery)

/-! ## Trending-API scraper (third file of `part_005`, lines 543–706) -/

/-- A raw hit in the trending shape (`videoId`, `authorName`, ...). -/
structure TrendVideo where
  videoId : Option String
  authorName : Option String
  videoUrl : Option String
  videoTitle : Option String
  likes : Option Nat
  commentsCount : Option Nat
  shares : Option Nat
  playCount : Option Nat
  videoDuration : Option Nat
  musicTitle : Option String

/-- External collaborators of the trending scraper: search, trend-query
save and video save.  There is no download or upload collaborator: the
code stores the TikTok page URL directly (`part_005` lines 632–634). -/
structure TrendEnv where
  search : String → Option (List TrendVideo)
  saveQuery : String → Option String
  saveVideo : String → Option String

/-- Per-video body of the trending scraper (`part_005` lines 618–690):
no media is fetched; `supabaseUrl` is set to the TikTok page URL. -/
def processTrendVideo (env : TrendEnv) (query : String) (v : TrendVideo) :
    Option ProcessedVideo :=
  match v.videoId with
  | none => none
  | some vid =>
    if vid = "" then none
    else
    match v.authorName with
    | none => none
    | some an =>
      if an = "" then none
      else
      let videoUrl := jsOrStr v.videoUrl ("https://www.tiktok.com/@" ++ an ++ "/video/" ++ vid)
      match env.saveVideo videoUrl with
      | none => none
      | some dbId =>
        some { pvId := "",
               author := jsOrStr v.authorName "Unknown Author",
               title := jsOrStr v.videoTitle query,
               description := jsOrStr v.videoTitle query,
               likes := jsOrNat v.likes 0,
               comments := jsOrNat v.commentsCount 0,
               shares := jsOrNat v.shares 0,
               views := jsOrNat v.playCount 0,
               originalUrl := videoUrl,
               supabaseUrl := videoUrl,
               coverUrl := "",
               searchQuery := query,
               duration := jsOrNat v.videoDuration 0,
               musicTitle := jsOrStr v.musicTitle "N/A",
               dbId := dbId }

/-- `scrapeTikTokVideos` of the trending variant. -/
def scrapeTikTokVideosTrending (env : TrendEnv) (searchQueries : List String)
    (videosPerQuery : Nat) (userId : Option String) : List ProcessedVideo :=
  searchQueries.flatMap (fun query =>
    let _ := match userId with
      | some _ => env.saveQuery query
      | none => none
    match env.search query with
    | none => []
    | some vids => (vids.take videosPerQuery).filterMap (processTrendVideo env query))

/-! ## Persistence adapter (`src/services/supabaseService.js` and the
unnamed supabase service file, `part_002`)

The relational store is modelled as an in-memory state; row inserts are
modelled as succeeding, with database-generated identifiers modelled by
fresh ids derived from the table size.  Lookup logic, placeholder
synthesis and hard failures are taken from the source. -/

/-- A row of the `users` table. -/
structure UserRow where
  rowId : String
  authId : Option String
  email : String
deriving Repr

/-- A row of the `trend_queries` table. -/
structure TrendQueryRow where
  rowId : String
  query : String
  userId : String
deriving Repr

/-- A row of the `recommendations` table. -/
structure RecRow where
  rowId : String
  userId : String
  combinedSummary : String
  contentIdeas : String
  videoIds : List String
deriving Repr

/-- The relational store. -/
structure Db where
  users : List UserRow
  trendQueries : List TrendQueryRow
  recommendations : List RecRow
deriving Repr

/-- Fresh database-generated user id. -/
def freshUserId (db : Db) : String := "user-" ++ toString db.users.length

/-- Fresh database-generated trend-query id. -/
def freshTqId (db : Db) : String := "tq-" ++ toString db.trendQueries.length

/-- Fresh database-generated recommendation id. -/
def freshRecId (db : Db) : String := "rec-" ++ toString db.recommendations.length

/-- `getUserProfile` of `part_002` (lines 555–588): first select by
`auth_id`, then by the raw primary key `id`; `none` when neither
resolves. -/
def getUserProfileP2 (db : Db) (userId : String) : Option UserRow :=
  match db.users.find? (fun u => u.authId = some userId) with
  | some u => some u
  | none => db.users.find? (fun u => u.rowId = userId)

/-- `getUserProfile` of `src/services/supabaseService.js` (lines
508–525): a single select by `auth_id` only. -/
def getUserProfileJs (db : Db) (userId : String) : Option UserRow :=
  db.users.find? (fun u => u.authId = some userId)

/-- `saveTrendQuery` of `part_002` (lines 193–288): resolve the owner
via the two-path lookup; when it fails, insert a placeholder user
carrying the external identifier as `auth_id`; when no owner identifier
was supplied at all, fall back to (or create) the `system@lazytrend.com`
user; then insert the trend-query row. -/
def saveTrendQueryP2 (db : Db) (userId : Option String) (query : String) :
    Db × TrendQueryRow :=
  let resolved : Db × Option String :=
    match userId with
    | some uid =>
      match getUserProfileP2 db uid with
      | some p => (db, some p.rowId)
      | none =>
        let nu : UserRow := { rowId := freshUserId db, authId := some uid,
                              email := "temp_" ++ uid ++ "@example.com" }
        ({ db with users := db.users ++ [nu] }, some nu.rowId)
    | none => (db, none)
  let final : Db × String :=
    match resolved.2 with
    | some o => (resolved.1, o)
    | none =>
      match resolved.1.users.find? (fun u => u.email = "system@lazytrend.com") with
      | some su => (resolved.1, su.rowId)
      | none =>
        let su : UserRow := { rowId := freshUserId resolved.1, authId := none,
                              email := "system@lazytrend.com" }
        ({ resolved.1 with users := resolved.1.users ++ [su] }, su.rowId)
  let row : TrendQueryRow := { rowId := freshTqId final.1, query := query, userId := final.2 }
  ({ final.1 with trendQueries := final.1.trendQueries ++ [row] }, row)

/-- `saveRecommendation` of `src/services/supabaseService.js` (lines
362–432): the owner must resolve through the `auth_id`-only lookup;
when it does not (or no owner identifier was supplied), the write fails
with a thrown error — no placeholder is synthesized. -/
def saveRecommendationJs (db : Db) (userId : Option String)
    (combinedSummary contentIdeas : String) (videoIds : List String) :
    Except String (Db × RecRow) :=
  match userId with
  | none => .error "Failed to save recommendation"
  | some uid =>
    match getUserProfileJs db uid with
    | none => .error "Failed to save recommendation"
    | some p =>
      let row : RecRow := { rowId := freshRecId db, userId := p.rowId,
                            combinedSummary := combinedSummary,
                            contentIdeas := contentIdeas, videoIds := videoIds }
      .ok ({ db with recommendations := db.recommendations ++ [row] }, row)

/-! ## Storage path normalization
(`src/services/supabaseService.js` lines 693–696) -/

/-- The per-filename normalization of `deleteVideosFromStorageBucket`:
`fileName.startsWith('videos/') ? fileName : 'videos/' + fileName`. -/
def normalizeVideoPath (fileName : String) : String :=
  if strHasPre "videos/" fileName then fileName else "videos/" ++ fileName

/-- The path list handed to `storage.remove` (lines 694–696). -/
def deleteVideosPaths (fileNames : List String) : List String :=
  fileNames.map normalizeVideoPath

/-! ## Helper lemmas about the deepseek query cascade -/

theorem dsStep2_length {content : String} {qs : List Json}
    (h : dsStep2 content = some qs) : qs.length = 5 := by
  unfold dsStep2 at h
  split at h
  · split at h
    · rename_i xs h5
      injection h with h
      rw [← h]
      exact h5
    · simp at h
  · simp at h

theorem dsStep3_length {content : String} {qs : List Json}
    (h : dsStep3 content = some qs) : qs.length = 5 := by
  unfold dsStep3 at h
  split at h
  · split at h
    · rename_i hlen
      injection h with h
      rw [← h]
      simp [List.length_take]
      omega
    · simp at h
  · simp at h

theorem dsStep4_length {content : String} {qs : List Json}
    (h : dsStep4 content = some qs) : qs.length = 5 := by
  unfold dsStep4 at h
  split at h
  · rename_i hlen
    injection h with h
    rw [← h]
    simp [List.length_take]
    omega
  · simp at h


theorem genDs_step2 {businessDescription content : String} {qs : List Json}
    (h : dsStep2 content = some qs) :
    generateSearchQueriesDs businessDescription content = qs := by
  unfold generateSearchQueriesDs
  rw [dsStep1_none, h]

theorem genDs_step3 {businessDescription content : String} {qs : List Json}
    (h2 : dsStep2 content = none) (h : dsStep3 content = some qs) :
    generateSearchQueriesDs businessDescription content = qs := by
  unfold generateSearchQueriesDs
  rw [dsStep1_none, h2, h]

theorem genDs_step4 {businessDescription content : String} {qs : List Json}
    (h2 : dsStep2 content = none) (h3 : dsStep3 content = none)
    (h : dsStep4 content = some qs) :
    generateSearchQueriesDs businessDescription content = qs := by
  unfold generateSearchQueriesDs
  rw [dsStep1_none, h2, h3, h]

theorem genDs_default {businessDescription content : String}
    (h2 : dsStep2 content = none) (h3 : dsStep3 content = none)
    (h4 : dsStep4 content = none) :
    generateSearchQueriesDs businessDescription content =
      [defaultQueryJson businessDescription] := by
  unfold generateSearchQueriesDs
  rw [dsStep1_none, h2, h3, h4]

/-- Exhaustive behaviour of the deepseek cascade: either some strategy
accepted (and exactly 5 items are returned), or all strategies failed
and the single synthetic default is returned. -/
theorem genDs_cases (businessDescription content : String) :
    (∃ qs, generateSearchQueriesDs businessDescription content = qs ∧ qs.length = 5 ∧
      (dsStep2 content = some qs ∨ dsStep3 content = some qs ∨ dsStep4 content = some qs)) ∨
    (generateSearchQueriesDs businessDescription content = [defaultQueryJson businessDescription] ∧
      dsStep2 content = none ∧ dsStep3 content = none ∧ dsStep4 content = none) := by
  cases h2 : dsStep2 content with
  | some qs =>
    exact Or.inl ⟨qs, genDs_step2 h2, dsStep2_length h2, Or.inl rfl⟩
  | none =>
    cases h3 : dsStep3 content with
    | some qs =>
      exact Or.inl ⟨qs, genDs_step3 h2 h3, dsStep3_length h3, Or.inr (Or.inl rfl)⟩
    | none =>
      cases h4 : dsStep4 content with
      | some qs =>
        exact Or.inl ⟨qs, genDs_step4 h2 h3 h4, dsStep4_length h4, Or.inr (Or.inr rfl)⟩
      | none =>
        exact Or.inr ⟨genDs_default h2 h3 h4, rfl, rfl, rfl⟩

/-! ## Claim theorems -/

/-- C5 (confirmed): for every response text that parses directly as a
well-formed 5-element JSON array, the direct-parse result is what is
returned by `generateSearchQueries` — in both the deepseek variant
(where the textually earlier bracket-regex strategy can never
contribute, `dsStep1_none`) and the `openrouterService.js` variant
(where direct parse is textually first). -/
theorem c5_direct_parse_result_returned (businessDescription content : String) (xs : List Json)
    (hp : jsonParse content = some (.arr xs)) (h5 : xs.length = 5) :
    generateSearchQueriesDs businessDescription content = xs ∧
    generateSearchQueriesJs content = .arr xs := by
  constructor
  · refine genDs_step2 ?_
    unfold dsStep2
    rw [hp]
    simp [h5]
  · unfold generateSearchQueriesJs
    rw [hp]

/-- Witness for C5 at a concrete 5-element array response. -/
theorem c5_witness :
    jsonParse "[\"a\",\"b\",\"c\",\"d\",\"e\"]" =
      some (.arr [.str "a", .str "b", .str "c", .str "d", .str "e"]) ∧
    generateSearchQueriesDs "bakery" "[\"a\",\"b\",\"c\",\"d\",\"e\"]" =
      [.str "a", .str "b", .str "c", .str "d", .str "e"] ∧
    generateSearchQueriesJs "[\"a\",\"b\",\"c\",\"d\",\"e\"]" =
      .arr [.str "a", .str "b", .str "c", .str "d", .str "e"] := by
  have h := c5_direct_parse_result_returned "bakery" "[\"a\",\"b\",\"c\",\"d\",\"e\"]"
    [.str "a", .str "b", .str "c", .str "d", .str "e"] (by rfl) (by rfl)
  exact ⟨by rfl, h.1, h.2⟩

/-- C10 (confirmed): the file-path normalization of
`deleteVideosFromStorageBucket` always yields a `videos/`-prefixed
path, leaves an already-prefixed name unchanged, and is idempotent. -/
theorem c10_path_normalization_idempotent (fileName : String) :
    strHasPre "videos/" (normalizeVideoPath fileName) = true ∧
    (strHasPre "videos/" fileName = true → normalizeVideoPath fileName = fileName) ∧
    normalizeVideoPath (normalizeVideoPath fileName) = normalizeVideoPath fileName := by
  have hpre : ∀ s : String, strHasPre "videos/" ("videos/" ++ s) = true := by
    intro s
    simp [strHasPre, String.data_append, List.isPrefixOf_iff_prefix]
  by_cases h : strHasPre "videos/" fileName = true
  · simp [normalizeVideoPath, h]
  · simp [normalizeVideoPath, h, hpre]

/-- Witness for C10 at a concrete already-prefixed file name. -/
theorem c10_witness :
    strHasPre "videos/" "videos/clip.mp4" = true ∧
    normalizeVideoPath "videos/clip.mp4" = "videos/clip.mp4" :=
  ⟨by decide, (c10_path_normalization_idempotent "videos/clip.mp4").2.1 (by decide)⟩

theorem sectionCapture_none (heading : String) (stop : Option String) {content : String}
    (h : ciFindIdx heading.data content.data = none) :
    sectionCapture heading stop content = none := by
  unfold sectionCapture
  rw [h]

/-- C7 (confirmed): when none of the seven strategy headings occurs
(case-insensitively) in the model response, `reconstructVideos` places
the entire text in `observations` and `rawContent` is the original text
verbatim. -/
theorem c7_no_headings_fallback (content : String)
    (h : ∀ hd ∈ strategyHeadings, ciFindIdx hd.data content.data = none) :
    (reconstructStrategy content).observations = content ∧
    (reconstructStrategy content).rawContent = content := by
  have h1 := sectionCapture_none "Observations from Analyzed Videos" (some "Key Trend Takeaways")
    (h "Observations from Analyzed Videos" (by simp [strategyHeadings]))
  have h2 := sectionCapture_none "Key Trend Takeaways" (some "Sample TikTok Script")
    (h "Key Trend Takeaways" (by simp [strategyHeadings]))
  have h3 := sectionCapture_none "Sample TikTok Script" (some "Technical Specifications for Sample Script")
    (h "Sample TikTok Script" (by simp [strategyHeadings]))
  have h4 := sectionCapture_none "Technical Specifications for Sample Script" (some "General Content Themes")
    (h "Technical Specifications for Sample Script" (by simp [strategyHeadings]))
  have h5 := sectionCapture_none "General Content Themes" (some "Hashtag Strategy")
    (h "General Content Themes" (by simp [strategyHeadings]))
  have h6 := sectionCapture_none "Hashtag Strategy" (some "Posting Frequency")
    (h "Hashtag Strategy" (by simp [strategyHeadings]))
  have h7 := sectionCapture_none "Posting Frequency" ((none : Option String))
    (h "Posting Frequency" (by simp [strategyHeadings]))
  constructor
  · simp [reconstructStrategy, h1, h2, h3, h4, h5, h6, h7]
  · simp [reconstructStrategy, h1, h2, h3, h4, h5, h6, h7]

/-- Witness for C7 at a concrete heading-free response. -/
theorem c7_witness :
    (∀ hd ∈ strategyHeadings,
      ciFindIdx hd.data ("Try shorter clips with upbeat music.").data = none) ∧
    (reconstructStrategy "Try shorter clips with upbeat music.").observations =
      "Try shorter clips with upbeat music." ∧
    (reconstructStrategy "Try shorter clips with upbeat music.").rawContent =
      "Try shorter clips with upbeat music." := by
  refine ⟨by decide, ?_, ?_⟩
  · exact (c7_no_headings_fallback _ (by decide)).1
  · exact (c7_no_headings_fallback _ (by decide)).2

/-- C1 counterexample: `[" "," "," "," "," "," "]` parses directly as a
JSON array of six non-empty strings — so the direct-parse strategy
recovers at least 5 non-empty candidate strings — yet the deepseek
`generateSearchQueries` returns the single synthetic default query
(the six candidates are not exactly 5, every quoted match trims to the
empty string, and the single "line" starts with `[`). -/
theorem c1_counterexample :
    jsonParse "[\" \",\" \",\" \",\" \",\" \",\" \"]" =
      some (.arr [.str " ", .str " ", .str " ", .str " ", .str " ", .str " "]) ∧
    (" " : String) ≠ "" ∧
    generateSearchQueriesDs "restaurant" "[\" \",\" \",\" \",\" \",\" \",\" \"]" =
      [defaultQueryJson "restaurant"] ∧
    (generateSearchQueriesDs "restaurant" "[\" \",\" \",\" \",\" \",\" \",\" \"]").length ≠ 5 := by
  refine ⟨by rfl, by decide, by rfl, ?_⟩
  rw [show generateSearchQueriesDs "restaurant" "[\" \",\" \",\" \",\" \",\" \",\" \"]" =
    [defaultQueryJson "restaurant"] from by rfl]
  decide

/-- C1 as amended: the deepseek `generateSearchQueries` returns exactly
5 query values precisely when one of its strategies accepts by its own
test — the direct parse yields an array of exactly 5 elements, or the
cleaned quoted-string extraction yields at least 5 candidates, or the
cleaned line extraction (splitting on the literal character pair `\n`)
yields at least 5 — and it returns the single synthetic default query
exactly when all three fail; the bracket-regex strategy can never
accept, because its double-escaped pattern only matches text beginning
with a backslash, which `JSON.parse` rejects. -/
theorem c1_amended (businessDescription content : String) :
    ((generateSearchQueriesDs businessDescription content).length = 5 ∨
      generateSearchQueriesDs businessDescription content =
        [defaultQueryJson businessDescription]) ∧
    (generateSearchQueriesDs businessDescription content =
        [defaultQueryJson businessDescription] ↔
      dsStep2 content = none ∧ dsStep3 content = none ∧ dsStep4 content = none) := by
  rcases genDs_cases businessDescription content with
    ⟨qs, hg, hlen, _⟩ | ⟨hg, h2, h3, h4⟩
  · constructor
    · left; rw [hg]; exact hlen
    · constructor
      · intro hd
        rw [hd] at hg
        have hl := congrArg List.length hg
        rw [hlen] at hl
        simp at hl
      · rintro ⟨h2, h3, h4⟩
        have : generateSearchQueriesDs businessDescription content =
            [defaultQueryJson businessDescription] := genDs_default h2 h3 h4
        rw [hg] at this
        have hl := congrArg List.length this
        rw [hlen] at hl
        simp at hl
  · exact ⟨Or.inr hg, ⟨fun _ => ⟨h2, h3, h4⟩, fun _ => hg⟩⟩

/-- C2 counterexample: on the response text `` ``` `` the
`openrouterService.js` variant returns the empty array — its final
line-splitting fallback filters the only line out and there is no
synthetic-default step — contradicting "the returned list is never
empty" and "its ultimate fallback is a single synthetic default
query". -/
theorem c2_counterexample :
    generateSearchQueriesJs "```" = .arr [] ∧ ([] : List Json).length = 0 := ⟨by rfl, rfl⟩

/-- C2 as amended: the deepseek variant of the normalization never
returns an empty list (it is a total function of the response text),
and when all of its strategies fail it returns the single synthetic
default query; the `openrouterService.js` variant also never throws
during normalization but can return an empty array. -/
theorem c2_amended (businessDescription content : String) :
    generateSearchQueriesDs businessDescription content ≠ [] ∧
    (dsStep2 content = none → dsStep3 content = none → dsStep4 content = none →
      generateSearchQueriesDs businessDescription content =
        [defaultQueryJson businessDescription]) := by
  constructor
  · rcases genDs_cases businessDescription content with
      ⟨qs, hg, hlen, _⟩ | ⟨hg, _, _, _⟩
    · rw [hg]
      intro hnil
      rw [hnil] at hlen
      simp at hlen
    · rw [hg]
      simp
  · intro h2 h3 h4
    exact genDs_default h2 h3 h4

/-- Witness for C2 at a concrete response on which every strategy
fails. -/
theorem c2_witness :
    dsStep2 "no quotes here" = none ∧ dsStep3 "no quotes here" = none ∧
    dsStep4 "no quotes here" = none ∧
    generateSearchQueriesDs "gym" "no quotes here" = [defaultQueryJson "gym"] :=
  ⟨by rfl, by rfl, by rfl,
    (c2_amended "gym" "no quotes here").2 (by rfl) (by rfl) (by rfl)⟩

/-- C9 counterexample: the `openrouterService.js`
`generateSearchQueries` returns the direct `JSON.parse` result without
any length check: a six-element array response yields six queries, not
at most 5 (and there is no one-element ultimate fallback, see the
empty-array return for C2). -/
theorem c9_counterexample :
    generateSearchQueriesJs "[\"a\",\"b\",\"c\",\"d\",\"e\",\"f\"]" =
      .arr [.str "a", .str "b", .str "c", .str "d", .str "e", .str "f"] ∧
    ¬ ([Json.str "a", .str "b", .str "c", .str "d", .str "e", .str "f"].length ≤ 5) :=
  ⟨by rfl, by decide⟩

/-- C9 as amended: every value returned by the deepseek variant is a
non-empty list of at most 5 items — each accepting path returns exactly
5 (verified or truncated), and the ultimate fallback is a one-element
list; the `openrouterService.js` variant returns its direct-parse
result unverified. -/
theorem c9_amended (businessDescription content : String) :
    0 < (generateSearchQueriesDs businessDescription content).length ∧
    (generateSearchQueriesDs businessDescription content).length ≤ 5 ∧
    ((generateSearchQueriesDs businessDescription content).length = 5 ∨
      generateSearchQueriesDs businessDescription content =
        [defaultQueryJson businessDescription]) := by
  rcases genDs_cases businessDescription content with
    ⟨qs, hg, hlen, _⟩ | ⟨hg, _, _, _⟩
  · rw [hg, hlen]
    exact ⟨by decide, by decide, Or.inl rfl⟩
  · rw [hg]
    exact ⟨by simp, by simp, Or.inr rfl⟩

/-- C6 (confirmed): the analyzer extracts the first greedy
brace-delimited span (dot matching newlines) and parses it; a missing
span or a parse failure is an error confined to that video — the batch
loop processes the surrounding videos exactly as if the failing one
were absent. -/
theorem c6_analysis_error_confined (env : AnalyzeEnv) (pre post : List String) (bad : String)
    (hbad : analyzeOne env bad = none) :
    analyzeBatch env (pre ++ bad :: post) = analyzeBatch env pre ++ analyzeBatch env post ∧
    (∀ raw, braceSpan raw = none →
      analyzeResponse raw = .error "Malformed AI response: No JSON object found") ∧
    (∀ raw m, braceSpan raw = some m → jsonParse m = none →
      analyzeResponse raw = .error "Malformed AI response: Invalid JSON format") ∧
    (∀ raw m v, braceSpan raw = some m → jsonParse m = some v →
      analyzeResponse raw = .ok v) := by
  refine ⟨?_, ?_, ?_, ?_⟩
  · simp [analyzeBatch, List.filterMap_append, List.filterMap_cons, hbad]
  · intro raw hb
    unfold analyzeResponse
    rw [hb]
  · intro raw m hb hj
    unfold analyzeResponse
    rw [hb]
    simp [hj]
  · intro raw m v hb hj
    unfold analyzeResponse
    rw [hb]
    simp [hj]

/-- A concrete analysis environment: one video whose response has no
brace span, between two well-behaved ones. -/
def analyzeEnv0 : AnalyzeEnv where
  call := fun v =>
    if v = "bad" then Except.ok "no analysis available"
    else Except.ok "\x7b\"summary\":\"ok\"\x7d"
  update := fun v _ => Except.ok v

/-- Witness for C6: the malformed middle video is skipped and the
surrounding ones survive. -/
theorem c6_witness :
    analyzeOne analyzeEnv0 "bad" = none ∧
    analyzeBatch analyzeEnv0 (["v1"] ++ "bad" :: ["v3"]) =
      analyzeBatch analyzeEnv0 ["v1"] ++ analyzeBatch analyzeEnv0 ["v3"] ∧
    braceSpan "no analysis available" = none ∧
    analyzeResponse "no analysis available" =
      .error "Malformed AI response: No JSON object found" := by
  have h := c6_analysis_error_confined analyzeEnv0 ["v1"] ["v3"] "bad" (by rfl)
  exact ⟨by rfl, h.1, by rfl, h.2.1 "no analysis available" (by rfl)⟩

/-- C4 (confirmed): the feed-search scraper takes at most
`videosPerQuery` hits per query (`slice(0, videosPerQuery)`), so its
result has at most `videosPerQuery` entries per query and at most
`queries.length * videosPerQuery` entries in total. -/
theorem c4_scrape_count_bound (env : FeedEnv) (userId : Option String)
    (videosPerQuery : Nat) (searchQueries : List String) :
    (∀ query, (scrapeFeedQuery env userId videosPerQuery query).length ≤ videosPerQuery) ∧
    (scrapeTikTokVideosFeed env searchQueries videosPerQuery userId).length ≤
      searchQueries.length * videosPerQuery := by
  have hq : ∀ query, (scrapeFeedQuery env userId videosPerQuery query).length ≤ videosPerQuery := by
    intro query
    unfold scrapeFeedQuery
    cases hs : env.search query with
    | none => simp
    | some vids =>
      calc ((vids.take videosPerQuery).enum.filterMap
              (fun iv => processFeedVideo env query
                (match userId with | some _ => env.saveQuery query | none => none) iv.1 iv.2)).length
          ≤ (vids.take videosPerQuery).enum.length := List.length_filterMap_le _ _
        _ = (vids.take videosPerQuery).length := List.enum_length
        _ ≤ videosPerQuery := by simp [List.length_take]
  refine ⟨hq, ?_⟩
  induction searchQueries with
  | nil => simp [scrapeTikTokVideosFeed]
  | cons q qs ih =>
    unfold scrapeTikTokVideosFeed at ih ⊢
    rw [List.flatMap_cons, List.length_append]
    calc (scrapeFeedQuery env userId videosPerQuery q).length +
          (qs.flatMap (scrapeFeedQuery env userId videosPerQuery)).length
        ≤ videosPerQuery + qs.length * videosPerQuery := Nat.add_le_add (hq q) ih
      _ = (q :: qs).length * videosPerQuery := by
          simp [List.length_cons, Nat.succ_mul, Nat.add_comm]

theorem processFeedVideo_provenance {env : FeedEnv} {query : String}
    {trendQueryId : Option String} {idx : Nat} {v : FeedVideo} {w : ProcessedVideo}
    (h : processFeedVideo env query trendQueryId idx v = some w) :
    ∃ dd mediaUrl blob fileName,
      env.download w.originalUrl = some dd ∧
      jsOrOpt dd.hdplay (jsOrOpt dd.play dd.wmplay) = some mediaUrl ∧
      mediaUrl ≠ "" ∧
      env.fetch mediaUrl = some blob ∧
      env.upload blob fileName = some w.supabaseUrl ∧
      w.supabaseUrl ≠ "" := by
  unfold processFeedVideo at h
  split at h
  · simp at h
  next vid hvid =>
    split at h
    · simp at h
    next hvne =>
      split at h
      · simp at h
      next auid hauid =>
        split at h
        · simp at h
        next dd hdd =>
          split at h
          · simp at h
          next durl hdurl =>
            split at h
            · simp at h
            next hdne =>
              split at h
              · simp at h
              next blob hfetch =>
                split at h
                · simp at h
                next supa hupload =>
                  split at h
                  · simp at h
                  next hsne =>
                    split at h
                    · simp at h
                    next dbId hsave =>
                      injection h with h
                      refine ⟨dd, durl, blob,
                        feedFileName env query trendQueryId idx, ?_, hdurl, hdne, hfetch, ?_, ?_⟩
                      · rw [← h]
                        exact hdd
                      · rw [← h]
                        exact hupload
                      · rw [← h]
                        exact hsne

/-- C3 as amended, feed-search half: every video returned by the
feed-search scraper owes its `supabaseUrl` to a successful upload of an
actually fetched binary, and its media URL was resolved from the
download data (`hdplay || play || wmplay`); contrapositively, a
candidate with no resolvable download URL, or whose download or upload
fails, never appears in the returned list. -/
theorem c3_amended_media_provenance (env : FeedEnv) (userId : Option String)
    (videosPerQuery : Nat) (searchQueries : List String) (w : ProcessedVideo)
    (hw : w ∈ scrapeTikTokVideosFeed env searchQueries videosPerQuery userId) :
    ∃ dd mediaUrl blob fileName,
      env.download w.originalUrl = some dd ∧
      jsOrOpt dd.hdplay (jsOrOpt dd.play dd.wmplay) = some mediaUrl ∧
      mediaUrl ≠ "" ∧
      env.fetch mediaUrl = some blob ∧
      env.upload blob fileName = some w.supabaseUrl ∧
      w.supabaseUrl ≠ "" := by
  unfold scrapeTikTokVideosFeed at hw
  rcases List.mem_flatMap.mp hw with ⟨q, _, hq⟩
  unfold scrapeFeedQuery at hq
  cases hs : env.search q with
  | none => rw [hs] at hq; simp at hq
  | some vids =>
    rw [hs] at hq
    rcases List.mem_filterMap.mp hq with ⟨iv, _, hpv⟩
    exact processFeedVideo_provenance hpv

/-- A concrete feed hit for the C3 witness. -/
def fv0 : FeedVideo where
  video_id := some "1"
  author_unique_id := some "a"
  title := some "t"
  digg_count := some 10
  comment_count := some 2
  share_count := some 3
  play_count := some 100
  duration := some 15
  music_title := some "m"
  cover := some "c"

/-- Concrete download data with only a `play` stream. -/
def dd0 : DownloadData where
  hdplay := none
  play := some "https://cdn.example/video1.mp4"
  wmplay := none
  title := some "dtitle"
  origin_cover := none
  cover := none
  duration := some 20
  music_title := some "dm"

/-- A concrete, fully successful feed-search environment. -/
def feedEnv0 : FeedEnv where
  search := fun q => if q = "q" then some [fv0] else none
  download := fun u => if u = "https://www.tiktok.com/@a/video/1" then some dd0 else none
  fetch := fun u => if u = "https://cdn.example/video1.mp4" then some "blob1" else none
  upload := fun b f => if b = "blob1" then some ("https://supabase.example/videos/" ++ f) else none
  saveQuery := fun _ => some "tq1"
  saveVideo := fun _ => some "db1"
  genId := fun _ i => "vid" ++ toString i

/-- The staged video that `feedEnv0` produces. -/
def pv0 : ProcessedVideo where
  pvId := "vid0"
  author := "a"
  title := "dtitle"
  description := "dtitle"
  likes := 10
  comments := 2
  shares := 3
  views := 100
  originalUrl := "https://www.tiktok.com/@a/video/1"
  supabaseUrl := "https://supabase.example/videos/vid0.mp4"
  coverUrl := "c"
  searchQuery := "q"
  duration := 20
  musicTitle := "dm"
  dbId := "db1"

/-- Witness for C3: a concrete successful run of the feed-search
scraper, with the provenance conclusion instantiated. -/
theorem c3_witness :
    pv0 ∈ scrapeTikTokVideosFeed feedEnv0 ["q"] 1 none ∧
    (∃ dd mediaUrl blob fileName,
      feedEnv0.download pv0.originalUrl = some dd ∧
      jsOrOpt dd.hdplay (jsOrOpt dd.play dd.wmplay) = some mediaUrl ∧
      mediaUrl ≠ "" ∧
      feedEnv0.fetch mediaUrl = some blob ∧
      feedEnv0.upload blob fileName = some pv0.supabaseUrl ∧
      pv0.supabaseUrl ≠ "") := by
  have hmem : pv0 ∈ scrapeTikTokVideosFeed feedEnv0 ["q"] 1 none := by
    have hrun : scrapeTikTokVideosFeed feedEnv0 ["q"] 1 none = [pv0] := by rfl
    rw [hrun]
    simp
  exact ⟨hmem, c3_amended_media_provenance feedEnv0 none 1 ["q"] pv0 hmem⟩

/-- A concrete trending-API hit. -/
def tv0 : TrendVideo where
  videoId := some "1"
  authorName := some "a"
  videoUrl := none
  videoTitle := some "t"
  likes := some 5
  commentsCount := some 1
  shares := some 2
  playCount := some 50
  videoDuration := some 9
  musicTitle := some "m"

/-- A concrete trending-API environment. -/
def trendEnv0 : TrendEnv where
  search := fun q => if q = "q" then some [tv0] else none
  saveQuery := fun _ => some "tq1"
  saveVideo := fun _ => some "db1"

/-- The video the trending scraper returns for `trendEnv0`. -/
def pvT0 : ProcessedVideo where
  pvId := ""
  author := "a"
  title := "t"
  description := "t"
  likes := 5
  comments := 1
  shares := 2
  views := 50
  originalUrl := "https://www.tiktok.com/@a/video/1"
  supabaseUrl := "https://www.tiktok.com/@a/video/1"
  coverUrl := ""
  searchQuery := "q"
  duration := 9
  musicTitle := "m"
  dbId := "db1"

/-- C3 counterexample: the trending-API variant of `scrapeTikTokVideos`
(the third file bundled in `part_005`) returns a video whose storage
URL *is* the TikTok page URL — no binary was downloaded or re-hosted
(the code comments "skip the video downloading/uploading part" and sets
`supabaseUrl = videoUrl`), refuting "every returned video carries a
storage URL obtained from an actually downloaded and re-hosted
binary". -/
theorem c3_counterexample :
    ∃ w, w ∈ scrapeTikTokVideosTrending trendEnv0 ["q"] 5 none ∧
      w.supabaseUrl = w.originalUrl ∧
      w.originalUrl = "https://www.tiktok.com/@a/video/1" := by
  refine ⟨pvT0, ?_, by rfl, by rfl⟩
  have hrun : scrapeTikTokVideosTrending trendEnv0 ["q"] 5 none = [pvT0] := by rfl
  rw [hrun]
  simp

/-- C8 as amended: the `part_002` trend-query persist path looks the
owner up by the auth-identity field and then by the raw primary key,
synthesizes a placeholder owner (carrying the external identifier as
`auth_id`) when neither resolves, and completes the write; but the
`supabaseService.js` recommendation persist path looks up only by the
auth-identity field and fails the write when it does not resolve. -/
theorem c8_amended :
    (∀ (db : Db) (uid query : String) (p : UserRow), getUserProfileP2 db uid = some p →
      (saveTrendQueryP2 db (some uid) query).2.userId = p.rowId ∧
      (saveTrendQueryP2 db (some uid) query).2 ∈
        (saveTrendQueryP2 db (some uid) query).1.trendQueries ∧
      (saveTrendQueryP2 db (some uid) query).1.users = db.users) ∧
    (∀ (db : Db) (uid query : String), getUserProfileP2 db uid = none →
      ∃ nu : UserRow, nu.authId = some uid ∧
        (saveTrendQueryP2 db (some uid) query).1.users = db.users ++ [nu] ∧
        (saveTrendQueryP2 db (some uid) query).2.userId = nu.rowId ∧
        (saveTrendQueryP2 db (some uid) query).2 ∈
          (saveTrendQueryP2 db (some uid) query).1.trendQueries) ∧
    (∀ (db : Db) (uid cs ci : String) (vi : List String), getUserProfileJs db uid = none →
      saveRecommendationJs db (some uid) cs ci vi = .error "Failed to save recommendation") ∧
    (∀ (db : Db) (uid : String), db.users.find? (fun u => u.authId = some uid) = none →
      getUserProfileP2 db uid = db.users.find? (fun u => u.rowId = uid)) := by
  refine ⟨?_, ?_, ?_, ?_⟩
  · intro db uid query p hp
    refine ⟨?_, ?_, ?_⟩ <;> simp [saveTrendQueryP2, hp]
  · intro db uid query hnone
    refine ⟨{ rowId := freshUserId db, authId := some uid,
              email := "temp_" ++ uid ++ "@example.com" }, rfl, ?_, ?_, ?_⟩ <;>
      simp [saveTrendQueryP2, hnone]
  · intro db uid cs ci vi hj
    simp [saveRecommendationJs, hj]
  · intro db uid hfind
    simp [getUserProfileP2, hfind]

/-- The empty relational store. -/
def emptyDb : Db := { users := [], trendQueries := [], recommendations := [] }

/-- C8 counterexample: with no owner record resolving,
`saveRecommendation` of `supabaseService.js` fails the write instead of
synthesizing a placeholder owner. -/
theorem c8_counterexample :
    saveRecommendationJs emptyDb (some "auth-1") "summary" "ideas" [] =
      .error "Failed to save recommendation" := by rfl

/-- Witness for C8: on the empty store, the trend-query path creates a
placeholder owner and completes, while the recommendation path fails. -/
theorem c8_witness :
    getUserProfileP2 emptyDb "auth-1" = none ∧
    (∃ nu : UserRow, nu.authId = some "auth-1" ∧
      (saveTrendQueryP2 emptyDb (some "auth-1") "vegan recipes").1.users =
        emptyDb.users ++ [nu] ∧
      (saveTrendQueryP2 emptyDb (some "auth-1") "vegan recipes").2.userId = nu.rowId ∧
      (saveTrendQueryP2 emptyDb (some "auth-1") "vegan recipes").2 ∈
        (saveTrendQueryP2 emptyDb (some "auth-1") "vegan recipes").1.trendQueries) ∧
    getUserProfileJs emptyDb "auth-1" = none ∧
    saveRecommendationJs emptyDb (some "auth-1") "s" "i" [] =
      .error "Failed to save recommendation" :=
  ⟨by rfl, c8_amended.2.1 emptyDb "auth-1" "vegan recipes" (by rfl), by rfl,
    c8_amended.2.2.1 emptyDb "auth-1" "s" "i" [] (by rfl)⟩
